import Mathlib

/-!
Shallow embedding of the xbox-controller state-interpretation framework in
`ksurct/common/peripherals/xbox.py`.

Events are immutable records carrying a timestamp and a raw signal value.
Each interpreter class becomes a structure holding its instance fields, and
each method becomes a pure function: mutating methods return the updated
state, `value` reads a result. Python floats are modelled by rationals;
`math.isclose` is translated with its documented formula and its default
relative tolerance of `1e-9`. Python `str.strip()` (remove leading and
trailing whitespace) is translated structurally over the character list.
-/

/-- Event record `ButtonEvent(time, state)`; `state` is the pressed/released boolean. -/
structure ButtonEvent where
  time : ℤ
  state : Bool

/-- Event record `AxisEvent(time, state)`; `state` is the raw signed axis sample. -/
structure AxisEvent where
  time : ℤ
  state : ℤ

/-- Event record `DPadEvent(time, state)`; `state` is the raw 4-bit hat bitmask. -/
structure DPadEvent where
  time : ℤ
  state : ℕ

/-- Python `math.isclose a b rel_tol abs_tol`, per its documentation:
`abs(a-b) <= max(rel_tol * max(abs(a), abs(b)), abs_tol)`. -/
def isclose (a b rel_tol abs_tol : ℚ) : Bool :=
  decide (|a - b| ≤ max (rel_tol * max |a| |b|) abs_tol)

/-- Python `str.strip()` with no arguments: remove leading and trailing
whitespace from the string. -/
def pyStrip (s : String) : String :=
  String.mk (((s.data.dropWhile fun c => c.isWhitespace).reverse.dropWhile
    fun c => c.isWhitespace).reverse)

/-- `CurrentButtonState`: state of the button at the time of polling. -/
structure CurrentButtonState where
  val : Bool

namespace CurrentButtonState

/-- `__init__`: `self._value = False`. -/
def init : CurrentButtonState := ⟨false⟩

/-- `process_event`: `self._value = event.state`. -/
def process_event (s : CurrentButtonState) (e : ButtonEvent) : CurrentButtonState :=
  ⟨e.state⟩

/-- `value`: returns `self._value`. -/
def value (s : CurrentButtonState) : Bool := s.val

/-- `clear` is inherited from `AbstractState`: a no-op. -/
def clear (s : CurrentButtonState) : CurrentButtonState := s

/-- `value()` as a state transformer: the method body performs no writes. -/
def valueRun (s : CurrentButtonState) : Bool × CurrentButtonState := (value s, s)

/-- `AbstractState.__call__`: read `value()`, then `clear()`, return the read value. -/
def call (s : CurrentButtonState) : Bool × CurrentButtonState :=
  ((valueRun s).1, clear (valueRun s).2)

end CurrentButtonState

/-- `ToggleButtonState`: state of the button as a two state toggle. -/
structure ToggleButtonState where
  val : Bool

namespace ToggleButtonState

/-- `__init__`: `self._value = False`. -/
def init : ToggleButtonState := ⟨false⟩

/-- `process_event`: `self._value ^= event.state`. -/
def process_event (s : ToggleButtonState) (e : ButtonEvent) : ToggleButtonState :=
  ⟨Bool.xor s.val e.state⟩

/-- `value`: returns `self._value`. -/
def value (s : ToggleButtonState) : Bool := s.val

/-- `clear`: `self._value = False`. -/
def clear (s : ToggleButtonState) : ToggleButtonState := ⟨false⟩

/-- Folding `process_event` over a list of delivered events. -/
def processList (s : ToggleButtonState) (l : List ButtonEvent) : ToggleButtonState :=
  l.foldl process_event s

/-- `value()` as a state transformer: the method body performs no writes. -/
def valueRun (s : ToggleButtonState) : Bool × ToggleButtonState := (value s, s)

/-- `AbstractState.__call__`: read `value()`, then `clear()`, return the read value. -/
def call (s : ToggleButtonState) : Bool × ToggleButtonState :=
  ((valueRun s).1, clear (valueRun s).2)

end ToggleButtonState

/-- `ClickedButtonState`: state of the button as having been clicked or not. -/
structure ClickedButtonState where
  val : Bool

namespace ClickedButtonState

/-- `__init__`: `self._value = False`. -/
def init : ClickedButtonState := ⟨false⟩

/-- `process_event`: `self._value |= event.state`. -/
def process_event (s : ClickedButtonState) (e : ButtonEvent) : ClickedButtonState :=
  ⟨s.val || e.state⟩

/-- `value`: returns `self._value`. -/
def value (s : ClickedButtonState) : Bool := s.val

/-- `clear`: `self._value = False`. -/
def clear (s : ClickedButtonState) : ClickedButtonState := ⟨false⟩

/-- `value()` as a state transformer: the method body performs no writes. -/
def valueRun (s : ClickedButtonState) : Bool × ClickedButtonState := (value s, s)

/-- `AbstractState.__call__`: read `value()`, then `clear()`, return the read value. -/
def call (s : ClickedButtonState) : Bool × ClickedButtonState :=
  ((valueRun s).1, clear (valueRun s).2)

end ClickedButtonState

/-- `DecimalAxisState`: state of an axis as a number from -1 to 1.
Fields: `zero_value` (the calibration reference) and `raw`
(the name-mangled `__value`, the last raw sample). -/
structure DecimalAxisState where
  zero_value : ℤ
  raw : ℤ

namespace DecimalAxisState

/-- Class constant `VAR_MAX = 32767`. -/
def VAR_MAX : ℤ := 32767

/-- Class constant `VAR_MIN = -32768`. -/
def VAR_MIN : ℤ := -32768

/-- `__init__`: `self.zero_value = 0; self.__value = 0`. -/
def init : DecimalAxisState := ⟨0, 0⟩

/-- `process_event`: `self.__value = event.state`. -/
def process_event (s : DecimalAxisState) (e : AxisEvent) : DecimalAxisState :=
  { s with raw := e.state }

/-- The normalization computed by `value` before the dead-zone test:
`normal = __value - zero_value`, then divided by `VAR_MAX - zero_value`
when `__value > 0`, else negated and divided by `VAR_MIN - zero_value`. -/
def normal (s : DecimalAxisState) : ℚ :=
  if s.raw > 0 then
    ((s.raw : ℚ) - (s.zero_value : ℚ)) / ((VAR_MAX : ℚ) - (s.zero_value : ℚ))
  else
    -((s.raw : ℚ) - (s.zero_value : ℚ)) / ((VAR_MIN : ℚ) - (s.zero_value : ℚ))

/-- The divisor used by the branch of `value` selected by the stored raw signal. -/
def divisor (s : DecimalAxisState) : ℚ :=
  if s.raw > 0 then (VAR_MAX : ℚ) - (s.zero_value : ℚ)
  else (VAR_MIN : ℚ) - (s.zero_value : ℚ)

/-- `value`: the normalization followed by the dead-zone collapse
`if isclose(normal, 0, abs_tol=0.04): return 0`. -/
def value (s : DecimalAxisState) : ℚ :=
  if isclose (normal s) 0 (1 / 1000000000) (4 / 100) then 0 else normal s

/-- `zero`: `self.zero_value = current`. -/
def zero (s : DecimalAxisState) (current : ℤ) : DecimalAxisState :=
  { s with zero_value := current }

/-- `clear` is inherited from `AbstractState`: a no-op. -/
def clear (s : DecimalAxisState) : DecimalAxisState := s

/-- `value()` as a state transformer: the method body performs no writes. -/
def valueRun (s : DecimalAxisState) : ℚ × DecimalAxisState := (value s, s)

/-- `AbstractState.__call__`: read `value()`, then `clear()`, return the read value. -/
def call (s : DecimalAxisState) : ℚ × DecimalAxisState :=
  ((valueRun s).1, clear (valueRun s).2)

end DecimalAxisState

/-- `DecimalTriggerState`: state of the trigger as a value from 0 to 1.
The `zero_value` field is set by `__init__` but never read; `zero` itself is
the inherited no-op. -/
structure DecimalTriggerState where
  zero_value : ℤ
  raw : ℤ

namespace DecimalTriggerState

/-- Class constant `VAR_MAX = 32767`. -/
def VAR_MAX : ℤ := 32767

/-- Class constant `VAR_MIN = -32768`. -/
def VAR_MIN : ℤ := -32768

/-- `__init__`: `self.zero_value = 0; self.__value = 0`. -/
def init : DecimalTriggerState := ⟨0, 0⟩

/-- `process_event`: `self.__value = event.state`. -/
def process_event (s : DecimalTriggerState) (e : AxisEvent) : DecimalTriggerState :=
  { s with raw := e.state }

/-- `value`: `(self.__value - VAR_MIN) / (VAR_MAX - VAR_MIN)`. -/
def value (s : DecimalTriggerState) : ℚ :=
  ((s.raw : ℚ) - (VAR_MIN : ℚ)) / ((VAR_MAX : ℚ) - (VAR_MIN : ℚ))

/-- `clear` is inherited from `AbstractState`: a no-op. -/
def clear (s : DecimalTriggerState) : DecimalTriggerState := s

/-- `value()` as a state transformer: the method body performs no writes. -/
def valueRun (s : DecimalTriggerState) : ℚ × DecimalTriggerState := (value s, s)

/-- `AbstractState.__call__`: read `value()`, then `clear()`, return the read value. -/
def call (s : DecimalTriggerState) : ℚ × DecimalTriggerState :=
  ((valueRun s).1, clear (valueRun s).2)

end DecimalTriggerState

/-- `PulledTriggerState`: state of the trigger as having been pulled or not.
Inherits the raw-signal memory of `DecimalTriggerState` and adds the latch
boolean `_value` (here `latch`). -/
structure PulledTriggerState extends DecimalTriggerState where
  latch : Bool

namespace PulledTriggerState

/-- `__init__`: `super().__init__(); self._value = False`. -/
def init : PulledTriggerState :=
  { toDecimalTriggerState := DecimalTriggerState.init, latch := false }

/-- `process_event`: `super().process_event(event); self._value |= super().value() > .9`
(the float literal `.9` is the rational `9/10`). -/
def process_event (s : PulledTriggerState) (e : AxisEvent) : PulledTriggerState :=
  let t := DecimalTriggerState.process_event s.toDecimalTriggerState e
  { toDecimalTriggerState := t,
    latch := s.latch || decide ((9 : ℚ) / 10 < DecimalTriggerState.value t) }

/-- `value`: returns `self._value`, the latch boolean. -/
def value (s : PulledTriggerState) : Bool := s.latch

/-- `clear`: `self._value = False`; the inherited raw memory is untouched. -/
def clear (s : PulledTriggerState) : PulledTriggerState :=
  { s with latch := false }

/-- `value()` as a state transformer: the method body performs no writes. -/
def valueRun (s : PulledTriggerState) : Bool × PulledTriggerState := (value s, s)

/-- `AbstractState.__call__`: read `value()`, then `clear()`, return the read value. -/
def call (s : PulledTriggerState) : Bool × PulledTriggerState :=
  ((valueRun s).1, clear (valueRun s).2)

end PulledTriggerState

/-- `DPadState`: state of the dpad as the current position, decoded to a
combo of 'u' or 'd' and 'r' or 'l'. Holds the last raw 4-bit code. -/
structure DPadState where
  code : ℕ

namespace DPadState

/-- `__init__`: `self.__value = 0`. -/
def init : DPadState := ⟨0⟩

/-- `process_event`: `self.__value = event.state`. -/
def process_event (s : DPadState) (e : DPadEvent) : DPadState :=
  ⟨e.state⟩

/-- `value`: `'u'` if bit 1 of the code, elif `'d'` if bit 4, else `' '`;
then append `'r'` if bit 2, elif `'l'` if bit 8, else `' '`. -/
def value (s : DPadState) : String :=
  let result := if s.code &&& 1 ≠ 0 then "u" else if s.code &&& 4 ≠ 0 then "d" else " "
  let result := result ++ (if s.code &&& 2 ≠ 0 then "r" else if s.code &&& 8 ≠ 0 then "l" else " ")
  result

/-- `clear` is inherited from `AbstractState`: a no-op. -/
def clear (s : DPadState) : DPadState := s

/-- `value()` as a state transformer: the method body performs no writes. -/
def valueRun (s : DPadState) : String × DPadState := (value s, s)

/-- `AbstractState.__call__`: read `value()`, then `clear()`, return the read value. -/
def call (s : DPadState) : String × DPadState :=
  ((valueRun s).1, clear (valueRun s).2)

end DPadState

/-- `DPadSwitchesState`: state as a collection of pressed cardinal directions.
The source names its base class `HatState`, a stale identifier from a rename
that is not defined anywhere in the module; the delegation pattern and the
decoded-direction strings fix the intended base as `DPadState` (the `HatEvent`
annotation on `DPadState.process_event` is the same stale rename of
`DPadEvent`). The Python `set` becomes a `Finset String`. -/
structure DPadSwitchesState extends DPadState where
  seen : Finset String

namespace DPadSwitchesState

/-- `__init__`: `super().__init__(); self.__value = set()`. -/
def init : DPadSwitchesState := { toDPadState := DPadState.init, seen := ∅ }

/-- `process_event`: `super().process_event(event); self.__value.add(super().value().strip())`. -/
def process_event (s : DPadSwitchesState) (e : DPadEvent) : DPadSwitchesState :=
  let d := DPadState.process_event s.toDPadState e
  { toDPadState := d, seen := insert (pyStrip (DPadState.value d)) s.seen }

/-- `value`: `tuple(self.__value)`, the accumulated members as an unordered
collection. -/
def value (s : DPadSwitchesState) : Finset String := s.seen

/-- `clear`: `self.__value.clear()`; the inherited last code is untouched. -/
def clear (s : DPadSwitchesState) : DPadSwitchesState :=
  { s with seen := ∅ }

/-- `value()` as a state transformer: the method body performs no writes. -/
def valueRun (s : DPadSwitchesState) : Finset String × DPadSwitchesState := (value s, s)

/-- `AbstractState.__call__`: read `value()`, then `clear()`, return the read value. -/
def call (s : DPadSwitchesState) : Finset String × DPadSwitchesState :=
  ((valueRun s).1, clear (valueRun s).2)

end DPadSwitchesState

/-- Spec-side trim that removes only trailing spaces, following the spec's
phrase `trimmed of trailing space`. -/
def trimTrailingSpaces (s : String) : String :=
  String.mk ((s.data.reverse.dropWhile fun c => c = ' ').reverse)

/-- Spec-side trim that removes leading and trailing spaces. -/
def stripSpaces (s : String) : String :=
  String.mk (((s.data.dropWhile fun c => c = ' ').reverse.dropWhile fun c => c = ' ').reverse)

/-- Spec-side first character of the decoded directional-pad string:
`'u'` if bit 0 is set, else `'d'` if bit 2 is set, else a space. -/
def dpadFirstChar (c : ℕ) : Char :=
  if c.testBit 0 then 'u' else if c.testBit 2 then 'd' else ' '

/-- Spec-side second character of the decoded directional-pad string:
`'r'` if bit 1 is set, else `'l'` if bit 3 is set, else a space. -/
def dpadSecondChar (c : ℕ) : Char :=
  if c.testBit 1 then 'r' else if c.testBit 3 then 'l' else ' '

/-- With target 0, the default relative tolerance and absolute tolerance 0.04,
`isclose` is exactly the magnitude test `|n| ≤ 0.04`. -/
lemma isclose_deadzone_iff (n : ℚ) :
    isclose n 0 (1 / 1000000000) (4 / 100) = true ↔ |n| ≤ 4 / 100 := by
  unfold isclose
  rw [decide_eq_true_iff]
  rw [sub_zero, abs_zero, max_eq_left (abs_nonneg n)]
  constructor
  · intro h
    rcases le_max_iff.mp h with h1 | h1
    · have h2 : (0 : ℚ) ≤ |n| := abs_nonneg n
      linarith
    · exact h1
  · intro h
    exact le_max_of_le_right h

/-- The axis `value` is its normalization with the dead-zone collapse. -/
lemma DecimalAxisState.value_eq_ite (s : DecimalAxisState) :
    s.value = if |s.normal| ≤ 4 / 100 then 0 else s.normal := by
  unfold DecimalAxisState.value
  by_cases h : |s.normal| ≤ 4 / 100
  · rw [if_pos ((isclose_deadzone_iff s.normal).mpr h), if_pos h]
  · rw [if_neg (fun hc => h ((isclose_deadzone_iff s.normal).mp hc)), if_neg h]

/-- Toggle parity: folding only pressed events over the toggle xors the
starting boolean with the parity of the event count. -/
lemma toggle_run_parity (l : List ButtonEvent) (hl : ∀ ev ∈ l, ev.state = true)
    (b : Bool) :
    (ToggleButtonState.processList ⟨b⟩ l).val
      = Bool.xor b (decide (l.length % 2 = 1)) := by
  induction l generalizing b with
  | nil => simp [ToggleButtonState.processList]
  | cons e tl ih =>
    have he : e.state = true := hl e (List.mem_cons_self e tl)
    have htl : ∀ ev ∈ tl, ev.state = true := fun ev hev => hl ev (List.mem_cons_of_mem e hev)
    have hstep : ToggleButtonState.process_event ⟨b⟩ e = ⟨Bool.xor b true⟩ := by
      rw [ToggleButtonState.process_event, he]
    simp only [ToggleButtonState.processList, List.foldl_cons] at ih ⊢
    rw [hstep, ih htl]
    rcases Nat.mod_two_eq_zero_or_one tl.length with h | h
    · have h1 : (tl.length + 1) % 2 = 1 := by omega
      simp [h, h1, List.length_cons]
    · have h1 : (tl.length + 1) % 2 = 0 := by omega
      simp [h, h1, List.length_cons]

/-- On every 4-bit code, the source decoding and Python `strip()` agree with
the spec-worded characters and the leading-and-trailing space trim. -/
lemma dpad_value_strip (c : ℕ) (hc : c < 16) :
    pyStrip (DPadState.value ⟨c⟩) = stripSpaces (DPadState.value ⟨c⟩) := by
  have h : ∀ x, x < 16 →
      pyStrip (DPadState.value ⟨x⟩) = stripSpaces (DPadState.value ⟨x⟩) := by decide
  exact h c hc

/-- Claim C1: for the calibrated axis with zero reference `z` strictly between
`VAR_MIN` and `VAR_MAX`, processing raw `VAR_MAX` makes `value()` return 1,
processing raw `VAR_MIN` makes it return -1, processing raw `z` makes it
return 0, and any state whose normalized result has magnitude at most 0.04
makes `value()` return exactly 0. -/
theorem C1_calibrated_axis (z : ℤ) (s : DecimalAxisState)
    (h1 : DecimalAxisState.VAR_MIN < z) (h2 : z < DecimalAxisState.VAR_MAX)
    (hs : |DecimalAxisState.normal s| ≤ 4 / 100) :
    DecimalAxisState.value (DecimalAxisState.process_event
      (DecimalAxisState.zero DecimalAxisState.init z) ⟨0, DecimalAxisState.VAR_MAX⟩) = 1
  ∧ DecimalAxisState.value (DecimalAxisState.process_event
      (DecimalAxisState.zero DecimalAxisState.init z) ⟨0, DecimalAxisState.VAR_MIN⟩) = -1
  ∧ DecimalAxisState.value (DecimalAxisState.process_event
      (DecimalAxisState.zero DecimalAxisState.init z) ⟨0, z⟩) = 0
  ∧ DecimalAxisState.value s = 0 := by
  rw [DecimalAxisState.VAR_MIN] at h1
  rw [DecimalAxisState.VAR_MAX] at h2
  have hzq1 : ((-32768 : ℤ) : ℚ) < (z : ℚ) := by exact_mod_cast h1
  have hzq2 : (z : ℚ) < ((32767 : ℤ) : ℚ) := by exact_mod_cast h2
  refine ⟨?_, ?_, ?_, ?_⟩
  · show DecimalAxisState.value ⟨z, DecimalAxisState.VAR_MAX⟩ = 1
    have hn : DecimalAxisState.normal ⟨z, DecimalAxisState.VAR_MAX⟩ = 1 := by
      unfold DecimalAxisState.normal
      rw [if_pos (show DecimalAxisState.VAR_MAX > 0 by rw [DecimalAxisState.VAR_MAX]; norm_num)]
      exact div_self (by rw [DecimalAxisState.VAR_MAX]; push_cast; push_cast at hzq2; linarith)
    rw [DecimalAxisState.value_eq_ite, hn]
    norm_num
  · show DecimalAxisState.value ⟨z, DecimalAxisState.VAR_MIN⟩ = -1
    have hn : DecimalAxisState.normal ⟨z, DecimalAxisState.VAR_MIN⟩ = -1 := by
      unfold DecimalAxisState.normal
      rw [if_neg (show ¬DecimalAxisState.VAR_MIN > 0 by rw [DecimalAxisState.VAR_MIN]; norm_num)]
      rw [neg_div]
      rw [div_self (by rw [DecimalAxisState.VAR_MIN]; push_cast; push_cast at hzq1; linarith)]
    rw [DecimalAxisState.value_eq_ite, hn]
    norm_num
  · show DecimalAxisState.value ⟨z, z⟩ = 0
    have hn : DecimalAxisState.normal ⟨z, z⟩ = 0 := by
      unfold DecimalAxisState.normal
      by_cases hz : z > 0
      · rw [if_pos hz, sub_self, zero_div]
      · rw [if_neg hz, sub_self, neg_zero, zero_div]
    rw [DecimalAxisState.value_eq_ite, hn]
    norm_num
  · rw [DecimalAxisState.value_eq_ite, if_pos hs]

/-- Witness for C1 at zero reference 0, with the near-rest state holding raw 100. -/
theorem C1_calibrated_axis_witness :
    DecimalAxisState.value (DecimalAxisState.process_event
      (DecimalAxisState.zero DecimalAxisState.init 0) ⟨0, DecimalAxisState.VAR_MAX⟩) = 1
  ∧ DecimalAxisState.value (⟨0, 100⟩ : DecimalAxisState) = 0 := by
  have hs : |DecimalAxisState.normal ⟨0, 100⟩| ≤ 4 / 100 := by
    have hn : DecimalAxisState.normal ⟨0, 100⟩ = 100 / 32767 := by
      unfold DecimalAxisState.normal
      rw [if_pos (by norm_num : (100 : ℤ) > 0)]
      rw [DecimalAxisState.VAR_MAX]
      push_cast
      norm_num
    rw [hn, abs_of_nonneg (by norm_num : (0 : ℚ) ≤ 100 / 32767)]
    norm_num
  have h := C1_calibrated_axis 0 ⟨0, 100⟩
    (by rw [DecimalAxisState.VAR_MIN]; norm_num)
    (by rw [DecimalAxisState.VAR_MAX]; norm_num) hs
  exact ⟨h.1, h.2.2.2⟩

/-- Claim C2 counterexample: the claim says the inserted string is the decoded
position trimmed only of trailing space, so after processing the right-only
code 2 the set would be the singleton of `trimTrailingSpaces " r" = " r"`;
the code's `strip()` also removes the leading space and inserts `"r"`. -/
theorem C2_counterexample :
    DPadSwitchesState.value (DPadSwitchesState.process_event DPadSwitchesState.init ⟨0, 2⟩)
      ≠ {trimTrailingSpaces (DPadState.value
          (DPadState.process_event DPadState.init ⟨0, 2⟩))} := by
  decide

/-- Claim C2 (amended: the inserted string is trimmed of leading and trailing
space): for every processed directional-pad event with a 4-bit code, the
accumulated-set interpreter first delegates the code update to the
directional-pad position interpreter and then inserts the decoded position
string of the current code stripped of leading and trailing spaces. -/
theorem C2_dpad_set_insert (s : DPadSwitchesState) (e : DPadEvent)
    (hc : e.state < 16) :
    DPadSwitchesState.process_event s e =
      { toDPadState := DPadState.process_event s.toDPadState e,
        seen := insert (stripSpaces (DPadState.value
          (DPadState.process_event s.toDPadState e))) s.seen } := by
  simp only [DPadSwitchesState.process_event, DPadState.process_event]
  rw [dpad_value_strip e.state hc]

/-- Witness for C2 (amended) at the fresh state and the right-only code. -/
theorem C2_dpad_set_insert_witness :
    DPadSwitchesState.process_event DPadSwitchesState.init ⟨0, 2⟩ =
      { toDPadState := DPadState.process_event DPadSwitchesState.init.toDPadState ⟨0, 2⟩,
        seen := insert (stripSpaces (DPadState.value (DPadState.process_event
          DPadSwitchesState.init.toDPadState ⟨0, 2⟩))) DPadSwitchesState.init.seen } :=
  C2_dpad_set_insert DPadSwitchesState.init ⟨0, 2⟩ (by decide)

/-- Claim C3: from a fresh accumulated directional set, processing the up
code 1, the up-right code 3 and the right code 2 makes `value()` return the
unordered collection `{"u", "ur", "r"}`; a subsequent `clear()` makes
`value()` return the empty collection, and `clear()` leaves the inherited
last-code memory unchanged. -/
theorem C3_dpad_set_trace (s : DPadSwitchesState) :
    DPadSwitchesState.value (DPadSwitchesState.process_event (DPadSwitchesState.process_event
      (DPadSwitchesState.process_event DPadSwitchesState.init ⟨0, 1⟩) ⟨0, 3⟩) ⟨0, 2⟩)
      = {"u", "ur", "r"}
  ∧ DPadSwitchesState.value (DPadSwitchesState.clear (DPadSwitchesState.process_event
      (DPadSwitchesState.process_event (DPadSwitchesState.process_event
        DPadSwitchesState.init ⟨0, 1⟩) ⟨0, 3⟩) ⟨0, 2⟩)) = ∅
  ∧ (DPadSwitchesState.clear s).toDPadState = s.toDPadState :=
  ⟨by decide, by decide, rfl⟩

/-- Claim C4: for the pulled-trigger latch, `value()` is false immediately
after construction; processing any raw value whose normalized trigger value
exceeds 0.9 makes `value()` true; once true it stays true across every
further `process_event`; and `clear()` resets only the latch boolean,
leaving the inherited raw-signal memory unchanged. -/
theorem C4_pulled_trigger_latch (s t : PulledTriggerState) (e f : AxisEvent)
    (h : (9 : ℚ) / 10 < DecimalTriggerState.value
      (DecimalTriggerState.process_event s.toDecimalTriggerState e))
    (ht : PulledTriggerState.value t = true) :
    PulledTriggerState.value PulledTriggerState.init = false
  ∧ PulledTriggerState.value (PulledTriggerState.process_event s e) = true
  ∧ PulledTriggerState.value (PulledTriggerState.process_event t f) = true
  ∧ (PulledTriggerState.clear t).latch = false
  ∧ (PulledTriggerState.clear t).toDecimalTriggerState = t.toDecimalTriggerState := by
  refine ⟨rfl, ?_, ?_, rfl, rfl⟩
  · simp only [PulledTriggerState.process_event, PulledTriggerState.value,
      Bool.or_eq_true, decide_eq_true_eq]
    exact Or.inr h
  · simp only [PulledTriggerState.process_event, PulledTriggerState.value,
      Bool.or_eq_true]
    exact Or.inl ht

/-- Witness for C4 at the fresh latch processing the full-scale raw sample. -/
theorem C4_pulled_trigger_latch_witness :
    PulledTriggerState.value (PulledTriggerState.process_event
      PulledTriggerState.init ⟨0, 32767⟩) = true := by
  have hval : DecimalTriggerState.value (DecimalTriggerState.process_event
      PulledTriggerState.init.toDecimalTriggerState ⟨0, 32767⟩) = 1 := by
    unfold DecimalTriggerState.value DecimalTriggerState.process_event
    rw [DecimalTriggerState.VAR_MIN, DecimalTriggerState.VAR_MAX]
    norm_num
  have ht : PulledTriggerState.value (PulledTriggerState.process_event
      PulledTriggerState.init ⟨0, 32767⟩) = true := by
    simp only [PulledTriggerState.process_event, PulledTriggerState.value,
      Bool.or_eq_true, decide_eq_true_eq]
    exact Or.inr (by rw [hval]; norm_num)
  exact (C4_pulled_trigger_latch PulledTriggerState.init
    (PulledTriggerState.process_event PulledTriggerState.init ⟨0, 32767⟩)
    ⟨0, 32767⟩ ⟨0, 0⟩ (by rw [hval]; norm_num) ht).2.1

/-- Claim C5: for the toggle starting false, any sequence of pressed edge
events with no intervening clear yields `value()` equal to the parity of the
event count; a released edge event never changes the state; and `clear()`
forces `value()` to false, resetting the parity to the initial state. -/
theorem C5_toggle_parity (l : List ButtonEvent) (s : ToggleButtonState)
    (e : ButtonEvent) (hl : ∀ ev ∈ l, ev.state = true) (he : e.state = false) :
    ToggleButtonState.value (ToggleButtonState.processList ToggleButtonState.init l)
      = decide (l.length % 2 = 1)
  ∧ ToggleButtonState.process_event s e = s
  ∧ ToggleButtonState.value (ToggleButtonState.clear s) = false
  ∧ ToggleButtonState.clear s = ToggleButtonState.init := by
  refine ⟨?_, ?_, rfl, rfl⟩
  · have h := toggle_run_parity l hl false
    simpa [ToggleButtonState.value, ToggleButtonState.init] using h
  · cases s with
    | mk v => simp [ToggleButtonState.process_event, he]

/-- Witness for C5 with one pressed event and one released event. -/
theorem C5_toggle_parity_witness :
    ToggleButtonState.value (ToggleButtonState.processList ToggleButtonState.init
      [⟨0, true⟩]) = true := by
  have h := C5_toggle_parity [⟨0, true⟩] ToggleButtonState.init ⟨0, false⟩
    (by intro ev hev; rw [List.mem_singleton] at hev; rw [hev]) rfl
  exact h.1.trans (by decide)

/-- Claim C6: for every stored 4-bit directional-pad code, `value()` returns
the two-character string whose first character is `'u'` if bit 0 is set, else
`'d'` if bit 2 is set, else a space, and whose second character is `'r'` if
bit 1 is set, else `'l'` if bit 3 is set, else a space; in particular code 0
gives `"  "`, 1 gives `"u "`, 3 gives `"ur"` and 12 gives `"dl"`. -/
theorem C6_dpad_decode (c : ℕ) (hc : c < 16) :
    DPadState.value ⟨c⟩ = String.mk [dpadFirstChar c, dpadSecondChar c]
  ∧ DPadState.value ⟨0⟩ = "  " ∧ DPadState.value ⟨1⟩ = "u "
  ∧ DPadState.value ⟨3⟩ = "ur" ∧ DPadState.value ⟨12⟩ = "dl" := by
  have h : ∀ x, x < 16 →
      DPadState.value ⟨x⟩ = String.mk [dpadFirstChar x, dpadSecondChar x] := by decide
  exact ⟨h c hc, by decide, by decide, by decide, by decide⟩

/-- Witness for C6 at the up-left code 9. -/
theorem C6_dpad_decode_witness :
    DPadState.value ⟨9⟩ = String.mk [dpadFirstChar 9, dpadSecondChar 9] :=
  (C6_dpad_decode 9 (by decide)).1

/-- Claim C7: for every interpreter variant and every state, `value()` leaves
the state unchanged, and the combined read-and-reset `__call__` returns
exactly what `value()` returns and moves to exactly the state `clear()`
produces. -/
theorem C7_value_pure_call (b : CurrentButtonState) (t : ToggleButtonState)
    (c : ClickedButtonState) (a : DecimalAxisState) (g : DecimalTriggerState)
    (p : PulledTriggerState) (d : DPadState) (w : DPadSwitchesState) :
    ((CurrentButtonState.valueRun b).2 = b
      ∧ CurrentButtonState.call b = (CurrentButtonState.value b, CurrentButtonState.clear b))
  ∧ ((ToggleButtonState.valueRun t).2 = t
      ∧ ToggleButtonState.call t = (ToggleButtonState.value t, ToggleButtonState.clear t))
  ∧ ((ClickedButtonState.valueRun c).2 = c
      ∧ ClickedButtonState.call c = (ClickedButtonState.value c, ClickedButtonState.clear c))
  ∧ ((DecimalAxisState.valueRun a).2 = a
      ∧ DecimalAxisState.call a = (DecimalAxisState.value a, DecimalAxisState.clear a))
  ∧ ((DecimalTriggerState.valueRun g).2 = g
      ∧ DecimalTriggerState.call g = (DecimalTriggerState.value g, DecimalTriggerState.clear g))
  ∧ ((PulledTriggerState.valueRun p).2 = p
      ∧ PulledTriggerState.call p = (PulledTriggerState.value p, PulledTriggerState.clear p))
  ∧ ((DPadState.valueRun d).2 = d
      ∧ DPadState.call d = (DPadState.value d, DPadState.clear d))
  ∧ ((DPadSwitchesState.valueRun w).2 = w
      ∧ DPadSwitchesState.call w = (DPadSwitchesState.value w, DPadSwitchesState.clear w)) :=
  ⟨⟨rfl, rfl⟩, ⟨rfl, rfl⟩, ⟨rfl, rfl⟩, ⟨rfl, rfl⟩, ⟨rfl, rfl⟩, ⟨rfl, rfl⟩,
    ⟨rfl, rfl⟩, ⟨rfl, rfl⟩⟩

/-- Claim C8: for the unlatched trigger, processing raw `VAR_MIN` makes
`value()` return 0, processing raw `VAR_MAX` makes it return 1, and the
mapping from stored raw signal to `value()` is linear over the range, in
particular at midpoints. -/
theorem C8_trigger_linear (r1 r2 r3 : ℤ) (h : r1 + r3 = 2 * r2) :
    DecimalTriggerState.value (DecimalTriggerState.process_event
      DecimalTriggerState.init ⟨0, DecimalTriggerState.VAR_MIN⟩) = 0
  ∧ DecimalTriggerState.value (DecimalTriggerState.process_event
      DecimalTriggerState.init ⟨0, DecimalTriggerState.VAR_MAX⟩) = 1
  ∧ 2 * DecimalTriggerState.value (DecimalTriggerState.process_event
        DecimalTriggerState.init ⟨0, r2⟩)
      = DecimalTriggerState.value (DecimalTriggerState.process_event
          DecimalTriggerState.init ⟨0, r1⟩)
        + DecimalTriggerState.value (DecimalTriggerState.process_event
            DecimalTriggerState.init ⟨0, r3⟩) := by
  have hq : (r1 : ℚ) + (r3 : ℚ) = 2 * (r2 : ℚ) := by exact_mod_cast h
  refine ⟨?_, ?_, ?_⟩
  · unfold DecimalTriggerState.value DecimalTriggerState.process_event
    rw [DecimalTriggerState.VAR_MIN, DecimalTriggerState.VAR_MAX]
    norm_num
  · unfold DecimalTriggerState.value DecimalTriggerState.process_event
    rw [DecimalTriggerState.VAR_MIN, DecimalTriggerState.VAR_MAX]
    norm_num
  · unfold DecimalTriggerState.value DecimalTriggerState.process_event
    rw [DecimalTriggerState.VAR_MIN, DecimalTriggerState.VAR_MAX]
    push_cast
    field_simp
    linarith

/-- Witness for C8 at the midpoint triple 0, 1, 2. -/
theorem C8_trigger_linear_witness :
    DecimalTriggerState.value (DecimalTriggerState.process_event
      DecimalTriggerState.init ⟨0, DecimalTriggerState.VAR_MIN⟩) = 0
  ∧ DecimalTriggerState.value (DecimalTriggerState.process_event
      DecimalTriggerState.init ⟨0, DecimalTriggerState.VAR_MAX⟩) = 1
  ∧ 2 * DecimalTriggerState.value (DecimalTriggerState.process_event
        DecimalTriggerState.init ⟨0, 1⟩)
      = DecimalTriggerState.value (DecimalTriggerState.process_event
          DecimalTriggerState.init ⟨0, 0⟩)
        + DecimalTriggerState.value (DecimalTriggerState.process_event
            DecimalTriggerState.init ⟨0, 2⟩) :=
  C8_trigger_linear 0 1 2 (by decide)

/-- Claim C9: no interpreter's behavior depends on event timestamps: for every
variant, processing two events that differ only in the timestamp field from
the same state yields the same state, so every later `value()`, `clear()` or
`zero()` behavior coincides. -/
theorem C9_timestamp_independent (t1 t2 : ℤ) (bsig : Bool) (xsig : ℤ) (dsig : ℕ)
    (b : CurrentButtonState) (t : ToggleButtonState) (c : ClickedButtonState)
    (a : DecimalAxisState) (g : DecimalTriggerState) (p : PulledTriggerState)
    (d : DPadState) (w : DPadSwitchesState) :
    CurrentButtonState.process_event b ⟨t1, bsig⟩ = CurrentButtonState.process_event b ⟨t2, bsig⟩
  ∧ ToggleButtonState.process_event t ⟨t1, bsig⟩ = ToggleButtonState.process_event t ⟨t2, bsig⟩
  ∧ ClickedButtonState.process_event c ⟨t1, bsig⟩ = ClickedButtonState.process_event c ⟨t2, bsig⟩
  ∧ DecimalAxisState.process_event a ⟨t1, xsig⟩ = DecimalAxisState.process_event a ⟨t2, xsig⟩
  ∧ DecimalTriggerState.process_event g ⟨t1, xsig⟩
      = DecimalTriggerState.process_event g ⟨t2, xsig⟩
  ∧ PulledTriggerState.process_event p ⟨t1, xsig⟩
      = PulledTriggerState.process_event p ⟨t2, xsig⟩
  ∧ DPadState.process_event d ⟨t1, dsig⟩ = DPadState.process_event d ⟨t2, dsig⟩
  ∧ DPadSwitchesState.process_event w ⟨t1, dsig⟩
      = DPadSwitchesState.process_event w ⟨t2, dsig⟩ :=
  ⟨rfl, rfl, rfl, rfl, rfl, rfl, rfl, rfl⟩

/-- Claim C10: with the zero reference strictly between `VAR_MIN` and
`VAR_MAX`, the divisor `value()` uses is never zero; the precondition is
necessary: with zero reference `VAR_MAX` and a positive stored raw signal, or
zero reference `VAR_MIN` and a non-positive stored raw signal, the selected
divisor is zero. -/
theorem C10_axis_divisor (s : DecimalAxisState)
    (h1 : DecimalAxisState.VAR_MIN < s.zero_value)
    (h2 : s.zero_value < DecimalAxisState.VAR_MAX) :
    DecimalAxisState.divisor s ≠ 0
  ∧ DecimalAxisState.divisor ⟨DecimalAxisState.VAR_MAX, 1⟩ = 0
  ∧ DecimalAxisState.divisor ⟨DecimalAxisState.VAR_MIN, 0⟩ = 0 := by
  rw [DecimalAxisState.VAR_MIN] at h1
  rw [DecimalAxisState.VAR_MAX] at h2
  have hq1 : ((-32768 : ℤ) : ℚ) < (s.zero_value : ℚ) := by exact_mod_cast h1
  have hq2 : ((s.zero_value : ℤ) : ℚ) < ((32767 : ℤ) : ℚ) := by exact_mod_cast h2
  refine ⟨?_, ?_, ?_⟩
  · unfold DecimalAxisState.divisor
    by_cases hr : s.raw > 0
    · rw [if_pos hr, DecimalAxisState.VAR_MAX]
      push_cast at hq2 ⊢
      intro hzero
      linarith
    · rw [if_neg hr, DecimalAxisState.VAR_MIN]
      push_cast at hq1 ⊢
      intro hzero
      linarith
  · unfold DecimalAxisState.divisor
    rw [if_pos (by norm_num : (1 : ℤ) > 0)]
    rw [DecimalAxisState.VAR_MAX]
    norm_num
  · unfold DecimalAxisState.divisor
    rw [if_neg (by norm_num : ¬(0 : ℤ) > 0)]
    rw [DecimalAxisState.VAR_MIN]
    norm_num

/-- Witness for C10 at the default zero reference with a stored raw of 5. -/
theorem C10_axis_divisor_witness :
    DecimalAxisState.divisor ⟨0, 5⟩ ≠ 0
  ∧ DecimalAxisState.divisor ⟨DecimalAxisState.VAR_MAX, 1⟩ = 0
  ∧ DecimalAxisState.divisor ⟨DecimalAxisState.VAR_MIN, 0⟩ = 0 :=
  C10_axis_divisor ⟨0, 5⟩ (by decide) (by decide)
